import Mathlib

/-!
Shallow embedding of the KnuffelGame LobbyService core: the relational
store (users / lobbies / players tables), the Postgres repository
primitives, the join-code generator, the HTTP handlers
(CreateLobby, JoinLobby, KickPlayer, UpdatePlayerActiveStatus) and the
RequireLobbyMember access guard, together with theorems checking the
natural-language specification against this embedding.

UUIDs are modelled as natural numbers (only equality is ever used on
them), timestamps as natural numbers, and each SQL statement of
`internal/repository` as a pure function on an explicit `Store` value.
A handler runs its storage operations against a transaction-local copy
of the store and adopts it only on commit, which models the
begin/rollback/commit discipline (`defer tx.Rollback()` plus an explicit
`tx.Commit()` on the success path) of the Go handlers.
-/

namespace Knuffel

/-- A row of the `users` table (`models.User`; `created_at` is never read
by the core operations and is omitted). -/
structure UserRow where
  id : Nat
  username : String
deriving Repr, DecidableEq

/-- A row of the `lobbies` table (`models.Lobby`; `created_at` and
`updated_at` are never read by the core operations and are omitted). -/
structure LobbyRow where
  id : Nat
  joinCode : String
  leaderId : Nat
  status : String
deriving Repr, DecidableEq

/-- A row of the `players` table (`models.Player`): one membership
episode of one user in one lobby. -/
structure PlayerRow where
  id : Nat
  lobbyId : Nat
  userId : Nat
  joinedAt : Nat
  isActive : Bool
  leftAt : Option Nat
deriving Repr, DecidableEq

/-- The whole relational state of the LobbyService database. -/
structure Store where
  users : List UserRow
  lobbies : List LobbyRow
  players : List PlayerRow
deriving Repr, DecidableEq

/-- The empty database. -/
def emptyStore : Store := ⟨[], [], []⟩

/-- `models.LobbyStatusWaiting`. -/
def lobbyStatusWaiting : String := "waiting"

/-- `models.LobbyStatusInGame`. -/
def lobbyStatusInGame : String := "in_game"

/-- `handlers.maxPlayers`. -/
def maxPlayers : Nat := 6

/-! ## Repository primitives (`internal/repository/postgres.go`) -/

/-- `CreateUserIfNotExistsTx`: `INSERT INTO users (id, username) VALUES
($1, $2) ON CONFLICT (id) DO NOTHING`. -/
def createUserIfNotExistsTx (s : Store) (userID : Nat) (username : String) : Store :=
  if s.users.any (fun u => u.id == userID) then s
  else { s with users := s.users ++ [⟨userID, username⟩] }

/-- `CreateLobbyTx`: `INSERT INTO lobbies (join_code, leader_id, status)
VALUES ($1, $2, 'waiting') RETURNING id`.  The generated id is passed in
as `newLobbyID`; the insert fails (`none`) when the primary-key or the
`join_code` uniqueness constraint rejects the row. -/
def createLobbyTx (s : Store) (joinCode : String) (leaderID newLobbyID : Nat) :
    Option Store :=
  if s.lobbies.any (fun l => l.id == newLobbyID) then none
  else if s.lobbies.any (fun l => l.joinCode == joinCode) then none
  else some { s with
    lobbies := s.lobbies ++ [⟨newLobbyID, joinCode, leaderID, lobbyStatusWaiting⟩] }

/-- `AddPlayerTx`: `INSERT INTO players (lobby_id, user_id, is_active)
VALUES ($1, $2, true) RETURNING id, joined_at`.  The generated id and
timestamp are passed in as `newPlayerID` and `now`; the insert fails
(`none`) when the primary-key constraint rejects the row. -/
def addPlayerTx (s : Store) (lobbyID userID newPlayerID now : Nat) : Option Store :=
  if s.players.any (fun p => p.id == newPlayerID) then none
  else some { s with
    players := s.players ++ [⟨newPlayerID, lobbyID, userID, now, true, none⟩] }

/-- `GetLobbyByJoinCodeTx`: `SELECT ... FROM lobbies WHERE join_code = $1`. -/
def getLobbyByJoinCodeTx (s : Store) (joinCode : String) : Option LobbyRow :=
  s.lobbies.find? (fun l => l.joinCode == joinCode)

/-- `GetLobbyPlayerCountTx`: `SELECT COUNT(*) FROM players WHERE
lobby_id = $1 AND is_active = true`. -/
def getLobbyPlayerCountTx (s : Store) (lobbyID : Nat) : Nat :=
  (s.players.filter (fun p => p.lobbyId == lobbyID && p.isActive)).length

/-- `IsMember` (ambient): `SELECT EXISTS(SELECT 1 FROM players WHERE
lobby_id = $1 AND user_id = $2)` — note: no `is_active` filter. -/
def isMember (s : Store) (lobbyID userID : Nat) : Bool :=
  s.players.any (fun p => p.lobbyId == lobbyID && p.userId == userID)

/-- `IsMemberTx`: `SELECT EXISTS(SELECT 1 FROM players WHERE
lobby_id = $1 AND user_id = $2 AND is_active = true)`. -/
def isMemberTx (s : Store) (lobbyID userID : Nat) : Bool :=
  s.players.any (fun p => p.lobbyId == lobbyID && p.userId == userID && p.isActive)

/-- `GetLobbyLeaderID` (ambient): `SELECT leader_id::text FROM lobbies
WHERE id = $1` (`sql.ErrNoRows` becomes `none`). -/
def getLobbyLeaderID (s : Store) (lobbyID : Nat) : Option Nat :=
  (s.lobbies.find? (fun l => l.id == lobbyID)).map (fun l => l.leaderId)

/-- `KickPlayerTx`: `UPDATE players SET is_active = false, left_at = NOW()
WHERE lobby_id = $1 AND user_id = $2 AND is_active = true`. -/
def kickPlayerTx (s : Store) (lobbyID targetUserID now : Nat) : Store :=
  { s with players := s.players.map (fun p =>
      if p.lobbyId == lobbyID && p.userId == targetUserID && p.isActive then
        { p with isActive := false, leftAt := some now }
      else p) }

/-- Modelled from the spec: `setMemberActive(lobbyId, membershipId, active)`
(§4.2) — the concrete `UpdatePlayerActiveStatusTx` body is absent from the
reviewed sources; its call site and the SQL its handler tests expect
(`UPDATE players SET is_active = $1 WHERE lobby_id = $2 AND id = $3`)
pin it down to: set `is_active` on the rows of the lobby whose row id
equals the given membership id. -/
def updatePlayerActiveStatusTx (s : Store) (lobbyID playerID : Nat) (active : Bool) :
    Store :=
  { s with players := s.players.map (fun p =>
      if p.lobbyId == lobbyID && p.id == playerID then
        { p with isActive := active }
      else p) }

/-! ## Handler outcomes and storage traces -/

/-- Outcome of a handler: `ok status` for a success response
(`httpx.WriteJSON` / `WriteNoContent`), `fail status code` for an error
response (`httpx.WriteError` with its HTTP status and machine-readable
error-code string). -/
inductive HResult where
  | ok (status : Nat)
  | fail (status : Nat) (code : String)
deriving Repr, DecidableEq

/-- One storage access performed by a handler, recorded in order so that
theorems can speak about which reads and writes a request issued. -/
inductive StorageOp where
  | beginTx
  | queryLobbyByCode (joinCode : String)
  | queryPlayerCount (lobbyID : Nat)
  | queryIsMember (lobbyID userID : Nat)
  | queryLeaderID (lobbyID : Nat)
  | queryLobbyDetail (lobbyID : Nat)
  | execCreateUser (userID : Nat) (username : String)
  | execCreateLobby (joinCode : String) (leaderID : Nat)
  | execAddPlayer (lobbyID userID : Nat)
  | execKickPlayer (lobbyID targetUserID : Nat)
  | execUpdateActive (lobbyID playerID : Nat) (active : Bool)
  | commitTx
deriving Repr, DecidableEq

/-! ## JoinLobbyHandler (`handlers/join_lobby.go`)

The transport-level steps (header extraction, UUID parsing, JSON
decoding) happen before any modelled state is touched and are outside
the embedding; the handler body starts at the join-code length check. -/

/-- `JoinLobbyHandler`: length check, then inside one transaction the
ordered checks lobby-by-code / status / capacity / membership, then
user upsert, player insert, commit and an ambient detail re-read.
Every error path returns the pre-transaction store (rollback). -/
def joinLobbyHandler (s : Store) (userID : Nat) (username joinCode : String)
    (newPlayerID now : Nat) : HResult × Store × List StorageOp :=
  if joinCode.length ≠ 6 then
    (.fail 400 "bad_request", s, [])
  else
    match getLobbyByJoinCodeTx s joinCode with
    | none =>
      (.fail 404 "not_found", s, [.beginTx, .queryLobbyByCode joinCode])
    | some lobby =>
      if lobby.status ≠ lobbyStatusWaiting then
        (.fail 409 "lobby_not_joinable", s, [.beginTx, .queryLobbyByCode joinCode])
      else if maxPlayers ≤ getLobbyPlayerCountTx s lobby.id then
        (.fail 409 "lobby_full", s,
          [.beginTx, .queryLobbyByCode joinCode, .queryPlayerCount lobby.id])
      else if isMemberTx s lobby.id userID then
        (.fail 409 "already_in_lobby", s,
          [.beginTx, .queryLobbyByCode joinCode, .queryPlayerCount lobby.id,
           .queryIsMember lobby.id userID])
      else
        let s1 := createUserIfNotExistsTx s userID username
        match addPlayerTx s1 lobby.id userID newPlayerID now with
        | none =>
          (.fail 500 "internal_error", s,
            [.beginTx, .queryLobbyByCode joinCode, .queryPlayerCount lobby.id,
             .queryIsMember lobby.id userID, .execCreateUser userID username,
             .execAddPlayer lobby.id userID])
        | some s2 =>
          (.ok 200, s2,
            [.beginTx, .queryLobbyByCode joinCode, .queryPlayerCount lobby.id,
             .queryIsMember lobby.id userID, .execCreateUser userID username,
             .execAddPlayer lobby.id userID, .commitTx, .queryLobbyDetail lobby.id])

/-! ## KickPlayerHandler (`handlers/kick_player.go`) -/

/-- `KickPlayerHandler`: the self-kick guard runs before `BeginTx`; then
leader resolution (ambient read), the leader check, the active-membership
check of the target, the deactivating update, and the commit. -/
def kickPlayerHandler (s : Store) (userID lobbyID targetUserID now : Nat) :
    HResult × Store × List StorageOp :=
  if targetUserID == userID then
    (.fail 400 "cannot_kick_self", s, [])
  else
    match getLobbyLeaderID s lobbyID with
    | none =>
      (.fail 404 "not_found", s, [.beginTx, .queryLeaderID lobbyID])
    | some leaderID =>
      if leaderID ≠ userID then
        (.fail 403 "forbidden", s, [.beginTx, .queryLeaderID lobbyID])
      else if !isMemberTx s lobbyID targetUserID then
        (.fail 404 "player_not_in_lobby", s,
          [.beginTx, .queryLeaderID lobbyID, .queryIsMember lobbyID targetUserID])
      else
        (.ok 204, kickPlayerTx s lobbyID targetUserID now,
          [.beginTx, .queryLeaderID lobbyID, .queryIsMember lobbyID targetUserID,
           .execKickPlayer lobbyID targetUserID, .commitTx])

/-! ## UpdatePlayerActiveStatusHandler (`handlers/update_player_active_status.go`) -/

/-- `UpdatePlayerActiveStatusHandler`: inside one transaction, resolve the
lobby leader (confirms the lobby exists), check `IsMemberTx` with the
path parameter `player_id` passed as the user-id argument, then run the
update and commit. -/
def updatePlayerActiveStatusHandler (s : Store) (lobbyID playerID : Nat)
    (active : Bool) : HResult × Store × List StorageOp :=
  match getLobbyLeaderID s lobbyID with
  | none =>
    (.fail 404 "not_found", s, [.beginTx, .queryLeaderID lobbyID])
  | some _ =>
    if !isMemberTx s lobbyID playerID then
      (.fail 404 "not_found", s,
        [.beginTx, .queryLeaderID lobbyID, .queryIsMember lobbyID playerID])
    else
      (.ok 204, updatePlayerActiveStatusTx s lobbyID playerID active,
        [.beginTx, .queryLeaderID lobbyID, .queryIsMember lobbyID playerID,
         .execUpdateActive lobbyID playerID active, .commitTx])

/-! ## CreateLobbyHandler (`handlers/create_lobby.go`)

Storage and generator failures are injected through a `FailSpec`, one
flag per fallible step, so that theorems can quantify over every failure
point of the transaction. -/

/-- Which steps of `CreateLobbyHandler` fail: the transaction begin, the
user insert, the join-code generation (`none` = generator error,
`some code` = generated code), the lobby insert, the player insert, and
the commit. -/
structure FailSpec where
  beginFails : Bool
  userInsertFails : Bool
  codeGenResult : Option String
  lobbyInsertFails : Bool
  playerInsertFails : Bool
  commitFails : Bool
deriving Repr, DecidableEq

/-- A `FailSpec` in which every step succeeds and the generator yields
`joinCode`. -/
def happyPath (joinCode : String) : FailSpec :=
  ⟨false, false, some joinCode, false, false, false⟩

/-- `CreateLobbyHandler`: begin, user upsert, code generation, lobby
insert, player insert, commit.  Every error path returns the
pre-transaction store (the deferred rollback); only the commit adopts
the transaction-local state. -/
def createLobbyHandler (s : Store) (fs : FailSpec) (userID : Nat) (username : String)
    (newLobbyID newPlayerID now : Nat) : HResult × Store :=
  if fs.beginFails then (.fail 500 "internal_error", s)
  else if fs.userInsertFails then (.fail 500 "internal_error", s)
  else
    let s1 := createUserIfNotExistsTx s userID username
    match fs.codeGenResult with
    | none => (.fail 500 "internal_error", s)
    | some joinCode =>
      if fs.lobbyInsertFails then (.fail 500 "internal_error", s)
      else
        match createLobbyTx s1 joinCode userID newLobbyID with
        | none => (.fail 500 "internal_error", s)
        | some s2 =>
          if fs.playerInsertFails then (.fail 500 "internal_error", s)
          else
            match addPlayerTx s2 newLobbyID userID newPlayerID now with
            | none => (.fail 500 "internal_error", s)
            | some s3 =>
              if fs.commitFails then (.fail 500 "internal_error", s)
              else (.ok 201, s3)

/-! ## RequireLobbyMember (`handlers/authorizers.go`) -/

/-- Outcome of an authorization middleware: pass the request through, or
short-circuit with an error response. -/
inductive GuardResult where
  | pass
  | halt (status : Nat) (code : String)
deriving Repr, DecidableEq

/-- `RequireLobbyMember`: resolve the lobby leader (404 when the lobby is
absent), pass the leader through, otherwise pass iff the ambient
`IsMember` query finds a membership row for the caller. -/
def requireLobbyMember (s : Store) (callerID lobbyID : Nat) : GuardResult :=
  match getLobbyLeaderID s lobbyID with
  | none => .halt 404 "not_found"
  | some leaderID =>
    if leaderID == callerID then .pass
    else if isMember s lobbyID callerID then .pass
    else .halt 403 "forbidden"

/-! ## Join-code generator (`internal/joincode/generator.go`) -/

/-- `joincode.CodeLength`. -/
def CodeLength : Nat := 6

/-- `joincode.Charset` as a list of characters. -/
def Charset : List Char := "ABCDEFGHIJKLMNOPQRSTUVWXYZ0123456789".toList

/-- `joincode.MaxRetries`. -/
def MaxRetries : Nat := 5

/-- `generateRandomCode`: map each random byte `b` to
`Charset[b % len(Charset)]`.  The random source is modelled as the list
of byte values `rand.Read` produced. -/
def generateRandomCode (bytes : List Nat) : List Char :=
  bytes.map (fun b => Charset.getD (b % Charset.length) 'A')

/-- `strings.ToUpper`, character by character. -/
def stringToUpper (cs : List Char) : List Char :=
  cs.map Char.toUpper

/-- The retry loop of `GenerateJoinCode`: one element of `attempts` per
loop iteration (the 6 bytes that attempt read from `crypto/rand`);
`codeExists` is the database collision oracle.  Returns `none` when every
attempt collided (`ErrMaxRetriesExceeded`). -/
def generateJoinCodeLoop (codeExists : String → Bool) :
    List (List Nat) → Option String
  | [] => none
  | bytes :: rest =>
    let code := String.mk (stringToUpper (generateRandomCode bytes))
    if codeExists code then generateJoinCodeLoop codeExists rest
    else some code

/-- `Generator.GenerateJoinCode`: up to `MaxRetries` attempts of
generate-uppercase-check. -/
def generateJoinCode (codeExists : String → Bool) (randomness : List (List Nat)) :
    Option String :=
  generateJoinCodeLoop codeExists (randomness.take MaxRetries)

/-! ## Sequential operation traces

One inbound business operation per step, applied to the committed store;
the parameters that the database would generate (fresh row ids, the
generated join code, the clock) are parameters of the operation, checked
by the corresponding primary-key / uniqueness constraints inside the
repository primitives. -/

/-- One inbound operation, with caller-supplied arguments and the values
the infrastructure would supply (generated ids, generator outcome). -/
inductive Op where
  | opCreate (callerID : Nat) (username : String) (fs : FailSpec)
      (newLobbyID newPlayerID : Nat)
  | opJoin (callerID : Nat) (username joinCode : String) (newPlayerID : Nat)
  | opKick (callerID lobbyID targetUserID : Nat)
  | opSetActive (lobbyID playerID : Nat) (active : Bool)
deriving Repr, DecidableEq

/-- The committed store after one operation (error responses leave the
store unchanged, by the rollback discipline of the handlers). -/
def applyOp (s : Store) (now : Nat) : Op → Store
  | .opCreate uid uname fs nlid npid =>
    (createLobbyHandler s fs uid uname nlid npid now).2
  | .opJoin uid uname code npid =>
    (joinLobbyHandler s uid uname code npid now).2.1
  | .opKick uid lid tuid =>
    (kickPlayerHandler s uid lid tuid now).2.1
  | .opSetActive lid pid active =>
    (updatePlayerActiveStatusHandler s lid pid active).2.1

/-- Run a list of operations, the clock ticking once per operation. -/
def runOpsFrom (s : Store) (t : Nat) : List Op → Store
  | [] => s
  | op :: rest => runOpsFrom (applyOp s t op) (t + 1) rest

/-- Run a list of operations against the empty database. -/
def runOps (ops : List Op) : Store := runOpsFrom emptyStore 0 ops

/-- Whether an operation is a `SetMemberActive` call with `active = true`
(the one operation that can re-activate a retired membership). -/
def activatesMember : Op → Bool
  | .opSetActive _ _ true => true
  | _ => false

/-- The HTTP status of a handler outcome. -/
def HResult.statusCode : HResult → Nat
  | .ok st => st
  | .fail st _ => st

/-! ## Invariant predicates -/

/-- Every membership row references an existing lobby row.  Holds for all
stores reachable from the empty database, since rows are only inserted
for lobbies that exist (or are created in the same transaction). -/
def playersRefLobbies (s : Store) : Prop :=
  ∀ p ∈ s.players, s.lobbies.any (fun l => l.id == p.lobbyId) = true

/-- Every lobby has at most `maxPlayers` active memberships. -/
def capacityOk (s : Store) : Prop :=
  ∀ lid, getLobbyPlayerCountTx s lid ≤ maxPlayers

/-- The combined store invariant carried through operation traces. -/
def StoreInv (s : Store) : Prop :=
  playersRefLobbies s ∧ capacityOk s

/-! ## Concrete fixtures -/

/-- A sequential trace that drives a lobby to 7 active memberships: the
leader creates lobby 10; user 2 joins (membership row 101) and is
kicked; a new user then registers with the caller-supplied user id 101 —
equal to the retired membership row's id — and joins; four more users
fill the lobby to 6 active members; finally `SetMemberActive(10, 101,
true)` passes the handler's membership check (an active row whose
`user_id` is 101 exists) and re-activates the kicked row 101. -/
def ex1Ops : List Op :=
  [ .opCreate 1 "A" (happyPath "CODE01") 10 100
  , .opJoin 2 "B" "CODE01" 101
  , .opKick 1 10 2
  , .opJoin 101 "E" "CODE01" 102
  , .opJoin 3 "C" "CODE01" 103
  , .opJoin 4 "D" "CODE01" 104
  , .opJoin 5 "F" "CODE01" 105
  , .opJoin 6 "G" "CODE01" 106
  , .opSetActive 10 101 true ]

/-- Lobby 10 led by user 1, with user 2 holding one deactivated
membership row (as after a kick). -/
def c2Store : Store :=
  ⟨[⟨1, "A"⟩, ⟨2, "B"⟩],
   [⟨10, "CODE01", 1, lobbyStatusWaiting⟩],
   [⟨100, 10, 1, 0, true, none⟩, ⟨101, 10, 2, 1, false, some 2⟩]⟩

/-- Lobby 10 led by user 1, with one active membership row whose row id
is 5 and whose user id is 100. -/
def c4Store : Store :=
  ⟨[⟨1, "A"⟩, ⟨100, "B"⟩],
   [⟨10, "CODE01", 1, lobbyStatusWaiting⟩],
   [⟨5, 10, 100, 0, true, none⟩]⟩

/-! # Theorems -/

/-! ## Join-code generator lemmas -/

lemma charset_length : Charset.length = 36 := by decide

lemma charset_toUpper_fixed : ∀ c ∈ Charset, c.toUpper = c := by decide

lemma getD_charset_mem (b : Nat) : Charset.getD (b % Charset.length) 'A' ∈ Charset := by
  have hlt : b % Charset.length < Charset.length :=
    Nat.mod_lt _ (by rw [charset_length]; omega)
  rw [List.getD_eq_getElem _ _ hlt]
  exact List.getElem_mem hlt

lemma generateRandomCode_length (bytes : List Nat) :
    (generateRandomCode bytes).length = bytes.length := by
  simp [generateRandomCode]

lemma generateRandomCode_mem (bytes : List Nat) :
    ∀ c ∈ generateRandomCode bytes, c ∈ Charset := by
  intro c hc
  simp only [generateRandomCode, List.mem_map] at hc
  obtain ⟨b, _, rfl⟩ := hc
  exact getD_charset_mem b

lemma generateJoinCodeLoop_mem (codeExists : String → Bool)
    (attempts : List (List Nat)) (c : String)
    (h : generateJoinCodeLoop codeExists attempts = some c) :
    ∃ bs ∈ attempts, c = String.mk (stringToUpper (generateRandomCode bs)) := by
  induction attempts with
  | nil => simp [generateJoinCodeLoop] at h
  | cons bs rest ih =>
    simp only [generateJoinCodeLoop] at h
    by_cases hex : codeExists (String.mk (stringToUpper (generateRandomCode bs)))
    · rw [if_pos hex] at h
      obtain ⟨bs', hmem, hc⟩ := ih h
      exact ⟨bs', List.mem_cons_of_mem _ hmem, hc⟩
    · rw [if_neg hex] at h
      exact ⟨bs, List.mem_cons_self _ _, (Option.some.injEq _ _).mp h.symm⟩

/-- C10: every join code returned successfully by `GenerateJoinCode` is
exactly 6 characters long and drawn from the 36-symbol alphabet A–Z0–9,
for every random byte sequence input (each attempt reads exactly
`CodeLength` bytes from `crypto/rand`). -/
theorem generateJoinCode_shape (codeExists : String → Bool)
    (randomness : List (List Nat)) (c : String)
    (hlen : ∀ bs ∈ randomness, bs.length = CodeLength)
    (hres : generateJoinCode codeExists randomness = some c) :
    c.length = 6 ∧ ∀ ch ∈ c.toList, ch ∈ Charset := by
  obtain ⟨bs, hmem, rfl⟩ := generateJoinCodeLoop_mem _ _ _ hres
  have hbs : bs.length = CodeLength := hlen bs (List.mem_of_mem_take hmem)
  constructor
  · show (stringToUpper (generateRandomCode bs)).length = 6
    simp [stringToUpper, generateRandomCode_length, hbs, CodeLength]
  · intro ch hch
    have hch' : ch ∈ stringToUpper (generateRandomCode bs) := hch
    simp only [stringToUpper, List.mem_map] at hch'
    obtain ⟨c0, hc0, rfl⟩ := hch'
    have hc0m : c0 ∈ Charset := generateRandomCode_mem bs c0 hc0
    rw [charset_toUpper_fixed c0 hc0m]
    exact hc0m

/-- Witness for C10 at a concrete random input and oracle. -/
theorem generateJoinCode_shape_witness :
    (∀ bs ∈ [[0, 1, 2, 3, 4, 5]], List.length bs = CodeLength) ∧
    String.length "ABCDEF" = 6 :=
  ⟨by decide,
   (generateJoinCode_shape (fun _ => false) [[0, 1, 2, 3, 4, 5]] "ABCDEF"
      (by decide) rfl).1⟩

/-! ## C8: kick-self is rejected before any storage access -/

/-- C8: a `KickPlayer` call whose target equals the caller returns the
`cannot_kick_self` error with the store unchanged and an empty storage
trace — no transaction is opened and nothing is read or written. -/
theorem kickSelf_no_storage_access (s : Store) (userID lobbyID now : Nat) :
    kickPlayerHandler s userID lobbyID userID now =
      (HResult.fail 400 "cannot_kick_self", s, []) := by
  simp [kickPlayerHandler]

/-! ## C9: idempotent, first-write-wins user creation -/

/-- C9: inserting the same user id twice with different display names
leaves the store exactly as after the first insert, and the stored rows
for that id are exactly one row carrying the first display name. -/
theorem upsertUser_first_write_wins (s : Store) (userID : Nat) (n1 n2 : String)
    (hfresh : s.users.any (fun u => u.id == userID) = false) :
    createUserIfNotExistsTx (createUserIfNotExistsTx s userID n1) userID n2 =
      createUserIfNotExistsTx s userID n1 ∧
    (createUserIfNotExistsTx (createUserIfNotExistsTx s userID n1) userID n2).users.filter
      (fun u => u.id == userID) = [⟨userID, n1⟩] := by
  have h1 : createUserIfNotExistsTx s userID n1 =
      { s with users := s.users ++ [⟨userID, n1⟩] } := by
    simp [createUserIfNotExistsTx, hfresh]
  have h2 : ({ s with users := s.users ++ [⟨userID, n1⟩]} : Store).users.any
      (fun u => u.id == userID) = true := by
    simp [List.any_append]
  constructor
  · rw [h1]
    simp [createUserIfNotExistsTx, h2]
  · rw [h1]
    simp only [createUserIfNotExistsTx, h2, if_pos]
    have hnil : s.users.filter (fun u => u.id == userID) = [] := by
      rw [List.filter_eq_nil_iff]
      intro u hu hcontra
      have hany : s.users.any (fun u => u.id == userID) = true :=
        List.any_eq_true.mpr ⟨u, hu, hcontra⟩
      rw [hfresh] at hany
      exact Bool.false_ne_true hany
    simp [List.filter_append, hnil]

/-- Witness for C9 on the empty store. -/
theorem upsertUser_first_write_wins_witness :
    (emptyStore.users.any (fun u => u.id == 7) = false) ∧
    createUserIfNotExistsTx (createUserIfNotExistsTx emptyStore 7 "alice") 7 "bob" =
      createUserIfNotExistsTx emptyStore 7 "alice" :=
  ⟨by decide, (upsertUser_first_write_wins emptyStore 7 "alice" "bob" (by decide)).1⟩

/-! ## C6: CreateLobby rolls back wholly on any failure -/

/-- C6: whenever any step of `CreateLobbyHandler` fails (transaction
begin, user upsert, code generation, lobby insert, player insert, or
commit), the returned store is exactly the store before the call — no
new lobby and no new membership is visible. -/
theorem createLobby_rollback_on_failure (s : Store) (fs : FailSpec) (userID : Nat)
    (username : String) (newLobbyID newPlayerID now : Nat)
    (hfail : (createLobbyHandler s fs userID username newLobbyID newPlayerID now).1 ≠
      HResult.ok 201) :
    (createLobbyHandler s fs userID username newLobbyID newPlayerID now).2 = s := by
  by_cases h1 : fs.beginFails
  · simp [createLobbyHandler, h1]
  by_cases h2 : fs.userInsertFails
  · simp [createLobbyHandler, h1, h2]
  rcases h3 : fs.codeGenResult with _ | code
  · simp [createLobbyHandler, h1, h2, h3]
  by_cases h4 : fs.lobbyInsertFails
  · simp [createLobbyHandler, h1, h2, h3, h4]
  rcases h5 : createLobbyTx (createUserIfNotExistsTx s userID username) code userID
      newLobbyID with _ | s2
  · simp [createLobbyHandler, h1, h2, h3, h4, h5]
  by_cases h6 : fs.playerInsertFails
  · simp [createLobbyHandler, h1, h2, h3, h4, h5, h6]
  rcases h7 : addPlayerTx s2 newLobbyID userID newPlayerID now with _ | s3
  · simp [createLobbyHandler, h1, h2, h3, h4, h5, h6, h7]
  by_cases h8 : fs.commitFails
  · simp [createLobbyHandler, h1, h2, h3, h4, h5, h6, h7, h8]
  · exact absurd (by simp [createLobbyHandler, h1, h2, h3, h4, h5, h6, h7, h8]) hfail

/-- Witness for C6: a commit failure on the empty store. -/
theorem createLobby_rollback_on_failure_witness :
    ((createLobbyHandler emptyStore ⟨false, false, some "CODE01", false, false, true⟩
        1 "A" 10 100 0).1 ≠ HResult.ok 201) ∧
    (createLobbyHandler emptyStore ⟨false, false, some "CODE01", false, false, true⟩
        1 "A" 10 100 0).2 = emptyStore :=
  ⟨by decide,
   createLobby_rollback_on_failure emptyStore
     ⟨false, false, some "CODE01", false, false, true⟩ 1 "A" 10 100 0 (by decide)⟩

/-! ## C2: the member guard does not check `is_active` -/

/-- C2 counterexample: in `c2Store`, caller 2 is not the leader of lobby
10 and holds only a deactivated membership row, yet `RequireLobbyMember`
passes the caller through — the ambient `IsMember` query has no
`is_active` filter, so the claim's "fails with forbidden" is false. -/
theorem requireMember_kicked_passes_counterexample :
    getLobbyLeaderID c2Store 10 = some 1 ∧
    isMemberTx c2Store 10 2 = false ∧
    requireLobbyMember c2Store 2 10 = GuardResult.pass := by decide

/-- C2 amended: for a caller who is not the lobby's leader, the guard
passes iff the caller has any membership row in the lobby, active or
not; only a caller with no membership row at all fails with forbidden. -/
theorem requireMember_pass_iff_member_row (s : Store) (callerID lobbyID leaderID : Nat)
    (hlead : getLobbyLeaderID s lobbyID = some leaderID) (hne : leaderID ≠ callerID) :
    requireLobbyMember s callerID lobbyID = GuardResult.pass ↔
      isMember s lobbyID callerID = true := by
  simp only [requireLobbyMember, hlead]
  rw [if_neg (by simpa using hne)]
  cases hm : isMember s lobbyID callerID <;> simp [hm]

/-- Witness for C2's amended theorem on `c2Store`. -/
theorem requireMember_pass_iff_member_row_witness :
    getLobbyLeaderID c2Store 10 = some 1 ∧ (1 : Nat) ≠ 2 ∧
    (requireLobbyMember c2Store 2 10 = GuardResult.pass ↔
      isMember c2Store 10 2 = true) :=
  ⟨rfl, by decide, requireMember_pass_iff_member_row c2Store 2 10 1 rfl (by decide)⟩

/-! ## C4: the membership precondition of SetMemberActive -/

/-- C4 counterexample: in `c4Store` the membership row with id 5 belongs
to lobby 10 and is active, yet `SetMemberActive(10, 5, false)` fails
with not-found and leaves the state unchanged — the handler feeds the
membership id into the user-id argument of `IsMemberTx`, so the check it
runs is not about the row identified by the membership id. -/
theorem setMemberActive_row_counterexample :
    c4Store.players.any (fun p => p.id == 5 && p.lobbyId == 10 && p.isActive) = true ∧
    getLobbyLeaderID c4Store 10 = some 1 ∧
    (updatePlayerActiveStatusHandler c4Store 10 5 false).1 =
      HResult.fail 404 "not_found" ∧
    (updatePlayerActiveStatusHandler c4Store 10 5 false).2.1 = c4Store := by decide

/-- C4 amended: when the lobby exists, `SetMemberActive` succeeds iff the
lobby has an active membership row whose user id equals the given
membership id (`IsMemberTx` applied to the membership id); on success it
sets `is_active` on the rows of the lobby whose row id equals that
membership id, otherwise it fails with not-found and leaves the state
unchanged. -/
theorem setMemberActive_amended (s : Store) (lobbyID playerID : Nat) (active : Bool)
    (leaderID : Nat) (hlead : getLobbyLeaderID s lobbyID = some leaderID) :
    (isMemberTx s lobbyID playerID = true →
      updatePlayerActiveStatusHandler s lobbyID playerID active =
        (HResult.ok 204, updatePlayerActiveStatusTx s lobbyID playerID active,
         [StorageOp.beginTx, StorageOp.queryLeaderID lobbyID,
          StorageOp.queryIsMember lobbyID playerID,
          StorageOp.execUpdateActive lobbyID playerID active, StorageOp.commitTx])) ∧
    (isMemberTx s lobbyID playerID = false →
      updatePlayerActiveStatusHandler s lobbyID playerID active =
        (HResult.fail 404 "not_found", s,
         [StorageOp.beginTx, StorageOp.queryLeaderID lobbyID,
          StorageOp.queryIsMember lobbyID playerID])) := by
  constructor
  · intro hm
    simp [updatePlayerActiveStatusHandler, hlead, hm]
  · intro hm
    simp [updatePlayerActiveStatusHandler, hlead, hm]

/-- Witness for C4's amended theorem on `c4Store`: id 100 is the user id
of an active row, so the handler succeeds there. -/
theorem setMemberActive_amended_witness :
    getLobbyLeaderID c4Store 10 = some 1 ∧
    isMemberTx c4Store 10 100 = true ∧
    (updatePlayerActiveStatusHandler c4Store 10 100 false).1 = HResult.ok 204 :=
  ⟨rfl, by decide, by
    have h := (setMemberActive_amended c4Store 10 100 false 1 rfl).1 (by decide)
    rw [h]⟩

/-! ## C5: conflict statuses and reason strings -/

/-- C5 counterexample: a self-kick is answered with HTTP status 400
(`bad_request`-level), not a 409-equivalent conflict. -/
theorem cannotKickSelf_status_counterexample :
    (kickPlayerHandler emptyStore 1 10 1 0).1.statusCode = 400 ∧
    ¬ (kickPlayerHandler emptyStore 1 10 1 0).1.statusCode = 409 := by decide

/-- C5 amended: the three join conflicts — lobby not joinable, lobby
full, already a member — are surfaced with status 409 and distinct
machine-readable reason strings, while cannot-kick-self is surfaced with
status 400 and reason `cannot_kick_self`. -/
theorem conflict_reason_codes (s : Store) (userID : Nat) (username joinCode : String)
    (newPlayerID now lobbyID kickerID : Nat) (hlen : joinCode.length = 6) :
    (∀ lobby, getLobbyByJoinCodeTx s joinCode = some lobby →
      lobby.status ≠ lobbyStatusWaiting →
      (joinLobbyHandler s userID username joinCode newPlayerID now).1 =
        HResult.fail 409 "lobby_not_joinable") ∧
    (∀ lobby, getLobbyByJoinCodeTx s joinCode = some lobby →
      lobby.status = lobbyStatusWaiting →
      maxPlayers ≤ getLobbyPlayerCountTx s lobby.id →
      (joinLobbyHandler s userID username joinCode newPlayerID now).1 =
        HResult.fail 409 "lobby_full") ∧
    (∀ lobby, getLobbyByJoinCodeTx s joinCode = some lobby →
      lobby.status = lobbyStatusWaiting →
      getLobbyPlayerCountTx s lobby.id < maxPlayers →
      isMemberTx s lobby.id userID = true →
      (joinLobbyHandler s userID username joinCode newPlayerID now).1 =
        HResult.fail 409 "already_in_lobby") ∧
    (kickPlayerHandler s kickerID lobbyID kickerID now).1 =
      HResult.fail 400 "cannot_kick_self" := by
  refine ⟨?_, ?_, ?_, ?_⟩
  · intro lobby hfind hst
    simp [joinLobbyHandler, hlen, hfind, hst]
  · intro lobby hfind hst hfull
    simp [joinLobbyHandler, hlen, hfind, hst, hfull]
  · intro lobby hfind hst hlt hmem
    have hnle : ¬ maxPlayers ≤ getLobbyPlayerCountTx s lobby.id := Nat.not_le.mpr hlt
    simp [joinLobbyHandler, hlen, hfind, hst, hnle, hmem]
  · simp [kickPlayerHandler]

/-- Witness for C5's amended theorem: the self-kick conjunct at a
concrete call. -/
theorem conflict_reason_codes_witness :
    String.length "CODE01" = 6 ∧
    (kickPlayerHandler emptyStore 3 10 3 0).1 =
      HResult.fail 400 "cannot_kick_self" :=
  ⟨by decide,
   (conflict_reason_codes emptyStore 1 "A" "CODE01" 50 0 10 3 (by decide)).2.2.2⟩

/-! ## C3: JoinLobby check order and first-failure error -/

/-- C3: for a 6-character join code the precondition checks run in the
fixed order lobby-exists, status, capacity, membership; the first
failing check determines the returned error, and the recorded storage
trace shows that no later check is evaluated once an earlier one
fails. -/
theorem joinLobby_check_order (s : Store) (userID : Nat) (username joinCode : String)
    (newPlayerID now : Nat) (hlen : joinCode.length = 6) :
    (getLobbyByJoinCodeTx s joinCode = none →
      joinLobbyHandler s userID username joinCode newPlayerID now =
        (HResult.fail 404 "not_found", s,
         [StorageOp.beginTx, StorageOp.queryLobbyByCode joinCode])) ∧
    (∀ lobby, getLobbyByJoinCodeTx s joinCode = some lobby →
      lobby.status ≠ lobbyStatusWaiting →
      joinLobbyHandler s userID username joinCode newPlayerID now =
        (HResult.fail 409 "lobby_not_joinable", s,
         [StorageOp.beginTx, StorageOp.queryLobbyByCode joinCode])) ∧
    (∀ lobby, getLobbyByJoinCodeTx s joinCode = some lobby →
      lobby.status = lobbyStatusWaiting →
      maxPlayers ≤ getLobbyPlayerCountTx s lobby.id →
      joinLobbyHandler s userID username joinCode newPlayerID now =
        (HResult.fail 409 "lobby_full", s,
         [StorageOp.beginTx, StorageOp.queryLobbyByCode joinCode,
          StorageOp.queryPlayerCount lobby.id])) ∧
    (∀ lobby, getLobbyByJoinCodeTx s joinCode = some lobby →
      lobby.status = lobbyStatusWaiting →
      getLobbyPlayerCountTx s lobby.id < maxPlayers →
      isMemberTx s lobby.id userID = true →
      joinLobbyHandler s userID username joinCode newPlayerID now =
        (HResult.fail 409 "already_in_lobby", s,
         [StorageOp.beginTx, StorageOp.queryLobbyByCode joinCode,
          StorageOp.queryPlayerCount lobby.id,
          StorageOp.queryIsMember lobby.id userID])) := by
  refine ⟨?_, ?_, ?_, ?_⟩
  · intro hfind
    simp [joinLobbyHandler, hlen, hfind]
  · intro lobby hfind hst
    simp [joinLobbyHandler, hlen, hfind, hst]
  · intro lobby hfind hst hfull
    simp [joinLobbyHandler, hlen, hfind, hst, hfull]
  · intro lobby hfind hst hlt hmem
    have hnle : ¬ maxPlayers ≤ getLobbyPlayerCountTx s lobby.id := Nat.not_le.mpr hlt
    simp [joinLobbyHandler, hlen, hfind, hst, hnle, hmem]

/-- Witness for C3: the lobby-absent case on the empty store. -/
theorem joinLobby_check_order_witness :
    String.length "ABC123" = 6 ∧
    joinLobbyHandler emptyStore 1 "A" "ABC123" 50 0 =
      (HResult.fail 404 "not_found", emptyStore,
       [StorageOp.beginTx, StorageOp.queryLobbyByCode "ABC123"]) :=
  ⟨by decide,
   (joinLobby_check_order emptyStore 1 "A" "ABC123" 50 0 (by decide)).1 rfl⟩

/-! ## Effect lemmas: how each handler can change the store -/

lemma createUserIfNotExistsTx_lobbies (s : Store) (userID : Nat) (username : String) :
    (createUserIfNotExistsTx s userID username).lobbies = s.lobbies := by
  unfold createUserIfNotExistsTx
  split <;> rfl

lemma createUserIfNotExistsTx_players (s : Store) (userID : Nat) (username : String) :
    (createUserIfNotExistsTx s userID username).players = s.players := by
  unfold createUserIfNotExistsTx
  split <;> rfl

lemma addPlayerTx_some (s : Store) (lobbyID userID newPlayerID now : Nat) (s2 : Store)
    (h : addPlayerTx s lobbyID userID newPlayerID now = some s2) :
    s2.lobbies = s.lobbies ∧
    s2.players = s.players ++ [⟨newPlayerID, lobbyID, userID, now, true, none⟩] := by
  unfold addPlayerTx at h
  split at h
  · exact absurd h (by simp)
  · injection h with h
    subst h
    exact ⟨rfl, rfl⟩

lemma createLobbyTx_some (s : Store) (joinCode : String) (leaderID newLobbyID : Nat)
    (s2 : Store) (h : createLobbyTx s joinCode leaderID newLobbyID = some s2) :
    s.lobbies.any (fun l => l.id == newLobbyID) = false ∧
    s2.lobbies = s.lobbies ++ [⟨newLobbyID, joinCode, leaderID, lobbyStatusWaiting⟩] ∧
    s2.players = s.players := by
  unfold createLobbyTx at h
  split at h
  · exact absurd h (by simp)
  · split at h
    · exact absurd h (by simp)
    · injection h with h
      subst h
      refine ⟨?_, rfl, rfl⟩
      rename_i hany _
      exact Bool.eq_false_iff.mpr hany

lemma joinLobbyHandler_effect (s : Store) (userID : Nat) (username joinCode : String)
    (newPlayerID now : Nat) :
    (joinLobbyHandler s userID username joinCode newPlayerID now).2.1 = s ∨
    ∃ lobby, getLobbyByJoinCodeTx s joinCode = some lobby ∧
      getLobbyPlayerCountTx s lobby.id < maxPlayers ∧
      (joinLobbyHandler s userID username joinCode newPlayerID now).2.1.lobbies =
        s.lobbies ∧
      (joinLobbyHandler s userID username joinCode newPlayerID now).2.1.players =
        s.players ++ [⟨newPlayerID, lobby.id, userID, now, true, none⟩] := by
  by_cases hlen : joinCode.length = 6
  case neg => left; simp [joinLobbyHandler, hlen]
  rcases hfind : getLobbyByJoinCodeTx s joinCode with _ | lobby
  · left; simp [joinLobbyHandler, hlen, hfind]
  by_cases hst : lobby.status = lobbyStatusWaiting
  case neg => left; simp [joinLobbyHandler, hlen, hfind, hst]
  by_cases hfull : maxPlayers ≤ getLobbyPlayerCountTx s lobby.id
  case pos => left; simp [joinLobbyHandler, hlen, hfind, hst, hfull]
  by_cases hmem : isMemberTx s lobby.id userID = true
  case pos => left; simp [joinLobbyHandler, hlen, hfind, hst, hfull, hmem]
  rcases hadd : addPlayerTx (createUserIfNotExistsTx s userID username) lobby.id userID
      newPlayerID now with _ | s2
  · left; simp [joinLobbyHandler, hlen, hfind, hst, hfull, hmem, hadd]
  right
  obtain ⟨hl, hp⟩ := addPlayerTx_some _ _ _ _ _ _ hadd
  refine ⟨lobby, hfind ▸ rfl, Nat.lt_of_not_le hfull, ?_, ?_⟩
  · simp only [joinLobbyHandler, hlen]
    simp [hfind, hst, hfull, hmem, hadd, hl, createUserIfNotExistsTx_lobbies]
  · simp only [joinLobbyHandler, hlen]
    simp [hfind, hst, hfull, hmem, hadd, hp, createUserIfNotExistsTx_players]

lemma kickPlayerHandler_effect (s : Store) (userID lobbyID targetUserID now : Nat) :
    (kickPlayerHandler s userID lobbyID targetUserID now).2.1 = s ∨
    (kickPlayerHandler s userID lobbyID targetUserID now).2.1 =
      kickPlayerTx s lobbyID targetUserID now := by
  by_cases hself : targetUserID == userID
  · left; simp [kickPlayerHandler, hself]
  rcases hlead : getLobbyLeaderID s lobbyID with _ | leaderID
  · left; simp [kickPlayerHandler, hself, hlead]
  by_cases hne : leaderID = userID
  case neg => left; simp [kickPlayerHandler, hself, hlead, hne]
  by_cases hmem : isMemberTx s lobbyID targetUserID = true
  case neg => left; simp [kickPlayerHandler, hself, hlead, hne, hmem]
  right; simp [kickPlayerHandler, hself, hlead, hne, hmem]

lemma updatePlayerActiveStatusHandler_effect (s : Store) (lobbyID playerID : Nat)
    (active : Bool) :
    (updatePlayerActiveStatusHandler s lobbyID playerID active).2.1 = s ∨
    (updatePlayerActiveStatusHandler s lobbyID playerID active).2.1 =
      updatePlayerActiveStatusTx s lobbyID playerID active := by
  rcases hlead : getLobbyLeaderID s lobbyID with _ | leaderID
  · left; simp [updatePlayerActiveStatusHandler, hlead]
  by_cases hmem : isMemberTx s lobbyID playerID = true
  case neg => left; simp [updatePlayerActiveStatusHandler, hlead, hmem]
  right; simp [updatePlayerActiveStatusHandler, hlead, hmem]

lemma createLobbyHandler_effect (s : Store) (fs : FailSpec) (userID : Nat)
    (username : String) (newLobbyID newPlayerID now : Nat) :
    (createLobbyHandler s fs userID username newLobbyID newPlayerID now).2 = s ∨
    ∃ joinCode, s.lobbies.any (fun l => l.id == newLobbyID) = false ∧
      (createLobbyHandler s fs userID username newLobbyID newPlayerID now).2.lobbies =
        s.lobbies ++ [⟨newLobbyID, joinCode, userID, lobbyStatusWaiting⟩] ∧
      (createLobbyHandler s fs userID username newLobbyID newPlayerID now).2.players =
        s.players ++ [⟨newPlayerID, newLobbyID, userID, now, true, none⟩] := by
  by_cases h1 : fs.beginFails
  · left; simp [createLobbyHandler, h1]
  by_cases h2 : fs.userInsertFails
  · left; simp [createLobbyHandler, h1, h2]
  rcases h3 : fs.codeGenResult with _ | code
  · left; simp [createLobbyHandler, h1, h2, h3]
  by_cases h4 : fs.lobbyInsertFails
  · left; simp [createLobbyHandler, h1, h2, h3, h4]
  rcases h5 : createLobbyTx (createUserIfNotExistsTx s userID username) code userID
      newLobbyID with _ | s2
  · left; simp [createLobbyHandler, h1, h2, h3, h4, h5]
  by_cases h6 : fs.playerInsertFails
  · left; simp [createLobbyHandler, h1, h2, h3, h4, h5, h6]
  rcases h7 : addPlayerTx s2 newLobbyID userID newPlayerID now with _ | s3
  · left; simp [createLobbyHandler, h1, h2, h3, h4, h5, h6, h7]
  by_cases h8 : fs.commitFails
  · left; simp [createLobbyHandler, h1, h2, h3, h4, h5, h6, h7, h8]
  right
  obtain ⟨hfresh, hl2, hp2⟩ := createLobbyTx_some _ _ _ _ _ h5
  obtain ⟨hl3, hp3⟩ := addPlayerTx_some _ _ _ _ _ _ h7
  rw [createUserIfNotExistsTx_lobbies] at hfresh hl2
  rw [createUserIfNotExistsTx_players] at hp2
  refine ⟨code, hfresh, ?_, ?_⟩
  · simp only [createLobbyHandler, h1, h2, h3, h4, h5, h6, h7, h8]
    simp [hl3, hl2]
  · simp only [createLobbyHandler, h1, h2, h3, h4, h5, h6, h7, h8]
    simp [hp3, hp2]

/-! ## C7: leader invariance -/

lemma find?_append_of_some {α : Type} (p : α → Bool) (l₁ l₂ : List α) (x : α)
    (h : l₁.find? p = some x) : (l₁ ++ l₂).find? p = some x := by
  induction l₁ with
  | nil => simp [List.find?] at h
  | cons a t ih =>
    by_cases ha : p a
    · rw [List.find?_cons_of_pos _ ha] at h
      rw [List.cons_append, List.find?_cons_of_pos _ ha]
      exact h
    · rw [List.find?_cons_of_neg _ ha] at h
      rw [List.cons_append, List.find?_cons_of_neg _ ha]
      exact ih h

lemma getLobbyLeaderID_of_lobbies_eq (s s' : Store) (h : s'.lobbies = s.lobbies)
    (lobbyID : Nat) : getLobbyLeaderID s' lobbyID = getLobbyLeaderID s lobbyID := by
  unfold getLobbyLeaderID
  rw [h]

lemma getLobbyLeaderID_append (s : Store) (extra : List LobbyRow) (lobbyID u : Nat)
    (h : getLobbyLeaderID s lobbyID = some u) :
    getLobbyLeaderID { s with lobbies := s.lobbies ++ extra } lobbyID = some u := by
  unfold getLobbyLeaderID at h ⊢
  rcases hfind : s.lobbies.find? (fun l => l.id == lobbyID) with _ | row
  · rw [hfind] at h
    simp at h
  · rw [hfind] at h
    rw [find?_append_of_some _ _ _ _ hfind]
    exact h

lemma leader_preserved_applyOp (s : Store) (now : Nat) (op : Op) (lobbyID u : Nat)
    (h : getLobbyLeaderID s lobbyID = some u) :
    getLobbyLeaderID (applyOp s now op) lobbyID = some u := by
  cases op with
  | opCreate uid uname fs nlid npid =>
    rcases createLobbyHandler_effect s fs uid uname nlid npid now with
      heq | ⟨code, _, hl, _⟩
    · simp only [applyOp]
      rw [heq]
      exact h
    · simp only [applyOp]
      rw [getLobbyLeaderID_of_lobbies_eq
        { s with lobbies := s.lobbies ++ [⟨nlid, code, uid, lobbyStatusWaiting⟩] } _ hl]
      exact getLobbyLeaderID_append s _ lobbyID u h
  | opJoin uid uname code npid =>
    rcases joinLobbyHandler_effect s uid uname code npid now with
      heq | ⟨lobby, _, _, hl, _⟩
    · simp only [applyOp]
      rw [heq]
      exact h
    · simp only [applyOp]
      rw [getLobbyLeaderID_of_lobbies_eq s _ hl]
      exact h
  | opKick uid lid tuid =>
    rcases kickPlayerHandler_effect s uid lid tuid now with heq | heq <;>
      simp only [applyOp] <;> rw [heq]
    · exact h
    · rw [getLobbyLeaderID_of_lobbies_eq s (kickPlayerTx s lid tuid now) rfl]
      exact h
  | opSetActive lid pid active =>
    rcases updatePlayerActiveStatusHandler_effect s lid pid active with heq | heq <;>
      simp only [applyOp] <;> rw [heq]
    · exact h
    · rw [getLobbyLeaderID_of_lobbies_eq s
        (updatePlayerActiveStatusTx s lid pid active) rfl]
      exact h

/-- C7: the leader id of an existing lobby is unchanged by any sequence
of CreateLobby, JoinLobby, KickPlayer, and SetMemberActive operations —
none of them writes a lobby row's `leader_id`. -/
theorem leader_invariant (ops : List Op) (s : Store) (t lobbyID u : Nat)
    (h : getLobbyLeaderID s lobbyID = some u) :
    getLobbyLeaderID (runOpsFrom s t ops) lobbyID = some u := by
  induction ops generalizing s t with
  | nil => exact h
  | cons op rest ih =>
    exact ih (applyOp s t op) (t + 1) (leader_preserved_applyOp s t op lobbyID u h)

/-- Witness for C7: lobby 10 of `c2Store` keeps leader 1 across a join,
a kick, and a set-active call. -/
theorem leader_invariant_witness :
    getLobbyLeaderID c2Store 10 = some 1 ∧
    getLobbyLeaderID
      (runOpsFrom c2Store 0
        [.opJoin 3 "C" "CODE01" 200, .opKick 1 10 3, .opSetActive 10 1 false]) 10 =
      some 1 :=
  ⟨rfl, leader_invariant _ c2Store 0 10 1 rfl⟩

/-! ## C1: capacity — counting lemmas -/

lemma filterLen_map_le {α : Type} (f : α → α) (pred : α → Bool) (l : List α)
    (hf : ∀ a ∈ l, pred (f a) = true → pred a = true) :
    ((l.map f).filter pred).length ≤ (l.filter pred).length := by
  induction l with
  | nil => simp
  | cons a t ih =>
    have iht : ((t.map f).filter pred).length ≤ (t.filter pred).length :=
      ih fun b hb => hf b (List.mem_cons_of_mem _ hb)
    by_cases hfa : pred (f a) = true
    · have ha : pred a = true := hf a (List.mem_cons_self _ _) hfa
      simp only [List.map_cons, List.filter_cons, hfa, ha, if_true, List.length_cons]
      exact Nat.succ_le_succ iht
    · have hfa' : pred (f a) = false := Bool.eq_false_iff.mpr hfa
      by_cases ha : pred a = true
      · simp only [List.map_cons, List.filter_cons, hfa', ha, if_true,
          Bool.false_eq_true, if_false, List.length_cons]
        exact Nat.le_succ_of_le iht
      · have ha' : pred a = false := Bool.eq_false_iff.mpr ha
        simp only [List.map_cons, List.filter_cons, hfa', ha', Bool.false_eq_true,
          if_false]
        exact iht

lemma count_kickPlayerTx_le (s : Store) (lobbyID targetUserID now lid : Nat) :
    getLobbyPlayerCountTx (kickPlayerTx s lobbyID targetUserID now) lid ≤
      getLobbyPlayerCountTx s lid := by
  unfold getLobbyPlayerCountTx kickPlayerTx
  apply filterLen_map_le
  intro p _ hpred
  by_cases hc : (p.lobbyId == lobbyID && p.userId == targetUserID && p.isActive) = true
  · simp [hc] at hpred
  · have hc' : (p.lobbyId == lobbyID && p.userId == targetUserID && p.isActive) =
        false := Bool.eq_false_iff.mpr hc
    simpa [hc'] using hpred

lemma count_updateFalse_le (s : Store) (lobbyID playerID lid : Nat) :
    getLobbyPlayerCountTx (updatePlayerActiveStatusTx s lobbyID playerID false) lid ≤
      getLobbyPlayerCountTx s lid := by
  unfold getLobbyPlayerCountTx updatePlayerActiveStatusTx
  apply filterLen_map_le
  intro p _ hpred
  by_cases hc : (p.lobbyId == lobbyID && p.id == playerID) = true
  · simp [hc] at hpred
  · have hc' : (p.lobbyId == lobbyID && p.id == playerID) = false :=
      Bool.eq_false_iff.mpr hc
    simpa [hc'] using hpred

lemma count_players_append (ps : List PlayerRow) (p : PlayerRow) (lid : Nat) :
    ((ps ++ [p]).filter (fun q => q.lobbyId == lid && q.isActive)).length =
      (ps.filter (fun q => q.lobbyId == lid && q.isActive)).length +
      (if (p.lobbyId == lid && p.isActive) = true then 1 else 0) := by
  rw [List.filter_append]
  by_cases hc : (p.lobbyId == lid && p.isActive) = true
  · simp [List.filter_cons, hc]
  · have hc' : (p.lobbyId == lid && p.isActive) = false := Bool.eq_false_iff.mpr hc
    simp [List.filter_cons, hc']

lemma count_nil_of_no_lobby (s : Store) (lid : Nat)
    (href : playersRefLobbies s)
    (hfresh : s.lobbies.any (fun l => l.id == lid) = false) :
    getLobbyPlayerCountTx s lid = 0 := by
  unfold getLobbyPlayerCountTx
  rw [List.length_eq_zero, List.filter_eq_nil_iff]
  intro p hp hcontra
  have hlob : s.lobbies.any (fun l => l.id == p.lobbyId) = true := href p hp
  have hplid : p.lobbyId = lid := by
    have := (Bool.and_eq_true _ _).mp hcontra
    exact beq_iff_eq.mp this.1
  rw [hplid] at hlob
  rw [hfresh] at hlob
  exact Bool.false_ne_true hlob

/-! ## C1: invariant preservation -/

lemma refs_map_preserved (s : Store) (f : PlayerRow → PlayerRow)
    (hf : ∀ p, (f p).lobbyId = p.lobbyId)
    (href : playersRefLobbies s) :
    playersRefLobbies { s with players := s.players.map f } := by
  intro p hp
  simp only [List.mem_map] at hp
  obtain ⟨q, hq, rfl⟩ := hp
  show s.lobbies.any (fun l => l.id == (f q).lobbyId) = true
  rw [hf q]
  exact href q hq

lemma storeInv_applyOp (s : Store) (now : Nat) (op : Op)
    (hinv : StoreInv s) (hop : activatesMember op = false) :
    StoreInv (applyOp s now op) := by
  obtain ⟨href, hcap⟩ := hinv
  cases op with
  | opCreate uid uname fs nlid npid =>
    rcases createLobbyHandler_effect s fs uid uname nlid npid now with
      heq | ⟨code, hfresh, hl, hp⟩
    · simp only [applyOp]
      rw [heq]
      exact ⟨href, hcap⟩
    · simp only [applyOp]
      constructor
      · intro p hpmem
        rw [hp] at hpmem
        rw [hl]
        rcases List.mem_append.mp hpmem with hold | hnew
        · rw [List.any_append, href p hold, Bool.true_or]
        · have hpe : p = ⟨npid, nlid, uid, now, true, none⟩ :=
            List.mem_singleton.mp hnew
          subst hpe
          rw [List.any_append]
          simp
      · intro lid
        show ((createLobbyHandler s fs uid uname nlid npid now).2.players.filter
          (fun q => q.lobbyId == lid && q.isActive)).length ≤ maxPlayers
        rw [hp, count_players_append]
        by_cases hc : nlid = lid
        · subst hc
          have h0 : getLobbyPlayerCountTx s nlid = 0 :=
            count_nil_of_no_lobby s nlid href hfresh
          unfold getLobbyPlayerCountTx at h0
          rw [h0]
          simp [maxPlayers]
        · have hc' : ((⟨npid, nlid, uid, now, true, none⟩ : PlayerRow).lobbyId ==
              lid && (⟨npid, nlid, uid, now, true, none⟩ : PlayerRow).isActive) =
              false := by
            simp [hc]
          rw [hc']
          simpa using hcap lid
  | opJoin uid uname code npid =>
    rcases joinLobbyHandler_effect s uid uname code npid now with
      heq | ⟨lobby, hfind, hlt, hl, hp⟩
    · simp only [applyOp]
      rw [heq]
      exact ⟨href, hcap⟩
    · simp only [applyOp]
      constructor
      · intro p hpmem
        rw [hp] at hpmem
        rw [hl]
        rcases List.mem_append.mp hpmem with hold | hnew
        · exact href p hold
        · have hpe : p = ⟨npid, lobby.id, uid, now, true, none⟩ :=
            List.mem_singleton.mp hnew
          subst hpe
          have hmem : lobby ∈ s.lobbies := List.mem_of_find?_eq_some hfind
          exact List.any_eq_true.mpr ⟨lobby, hmem, by simp⟩
      · intro lid
        show ((joinLobbyHandler s uid uname code npid now).2.1.players.filter
          (fun q => q.lobbyId == lid && q.isActive)).length ≤ maxPlayers
        rw [hp, count_players_append]
        by_cases hc : lobby.id = lid
        · subst hc
          have := hlt
          unfold getLobbyPlayerCountTx at this
          simp only [show ((⟨npid, lobby.id, uid, now, true, none⟩ :
            PlayerRow).lobbyId == lobby.id && (⟨npid, lobby.id, uid, now, true,
            none⟩ : PlayerRow).isActive) = true by simp, if_true]
          omega
        · have hc' : ((⟨npid, lobby.id, uid, now, true, none⟩ :
              PlayerRow).lobbyId == lid && (⟨npid, lobby.id, uid, now, true,
              none⟩ : PlayerRow).isActive) = false := by
            simp [hc]
          rw [hc']
          simpa using hcap lid
  | opKick uid lid₀ tuid =>
    rcases kickPlayerHandler_effect s uid lid₀ tuid now with heq | heq <;>
      simp only [applyOp] <;> rw [heq]
    · exact ⟨href, hcap⟩
    · constructor
      · exact refs_map_preserved s _ (fun p => by split <;> rfl) href
      · intro lid
        exact le_trans (count_kickPlayerTx_le s lid₀ tuid now lid) (hcap lid)
  | opSetActive lid₀ pid active =>
    have hfalse : active = false := by
      cases active
      · rfl
      · simp [activatesMember] at hop
    subst hfalse
    rcases updatePlayerActiveStatusHandler_effect s lid₀ pid false with heq | heq <;>
      simp only [applyOp] <;> rw [heq]
    · exact ⟨href, hcap⟩
    · constructor
      · exact refs_map_preserved s _ (fun p => by split <;> rfl) href
      · intro lid
        exact le_trans (count_updateFalse_le s lid₀ pid lid) (hcap lid)

lemma storeInv_runOpsFrom (ops : List Op) (s : Store) (t : Nat)
    (hinv : StoreInv s) (hops : ∀ op ∈ ops, activatesMember op = false) :
    StoreInv (runOpsFrom s t ops) := by
  induction ops generalizing s t with
  | nil => exact hinv
  | cons op rest ih =>
    exact ih (applyOp s t op) (t + 1)
      (storeInv_applyOp s t op hinv (hops op (List.mem_cons_self _ _)))
      (fun o ho => hops o (List.mem_cons_of_mem _ ho))

/-- C1 counterexample: the sequential trace `ex1Ops` — CreateLobby,
joins, a kick, a rejoin under the caller-supplied user id 101 (the
kicked row's membership id), and a final `SetMemberActive(10, 101,
true)` — drives lobby 10 to 7 active memberships, refuting the claim
that the active count can never exceed 6. -/
theorem capacity_counterexample :
    getLobbyPlayerCountTx (runOps ex1Ops) 10 = 7 ∧
    ¬ getLobbyPlayerCountTx (runOps ex1Ops) 10 ≤ maxPlayers := by
  have h : getLobbyPlayerCountTx (runOps ex1Ops) 10 = 7 := by decide
  exact ⟨h, by rw [h]; decide⟩

/-- C1 amended: for every sequence of CreateLobby, JoinLobby, KickPlayer
and SetMemberActive operations in which no `SetMemberActive` call has
`active = true`, every lobby's active membership count stays at most 6.
A `SetMemberActive` re-activation can exceed the cap. -/
theorem capacity_invariant (ops : List Op) (lid : Nat)
    (hops : ∀ op ∈ ops, activatesMember op = false) :
    getLobbyPlayerCountTx (runOps ops) lid ≤ maxPlayers := by
  have hinv0 : StoreInv emptyStore := by
    constructor
    · intro p hp
      simp [emptyStore] at hp
    · intro lid'
      simp [getLobbyPlayerCountTx, emptyStore, maxPlayers]
  exact (storeInv_runOpsFrom ops emptyStore 0 hinv0 hops).2 lid

/-- Witness for C1's amended theorem: a create followed by a join and a
kick, with no re-activation. -/
theorem capacity_invariant_witness :
    (∀ op ∈ [Op.opCreate 1 "A" (happyPath "CODE01") 10 100,
             Op.opJoin 2 "B" "CODE01" 101, Op.opKick 1 10 2],
      activatesMember op = false) ∧
    getLobbyPlayerCountTx
      (runOps [Op.opCreate 1 "A" (happyPath "CODE01") 10 100,
               Op.opJoin 2 "B" "CODE01" 101, Op.opKick 1 10 2]) 10 ≤ maxPlayers :=
  ⟨by decide, capacity_invariant _ 10 (by decide)⟩

end Knuffel
